import Mathlib

/-!
Shallow embedding of the TVWIZ IR Controller host scripts
(`src/pi/ir_recorder.py` and `src/pi/ir_boot_sender.py`).

JSON dictionaries are modelled as Lean structures with `Option` fields
(`none` = key absent).  The serial device is modelled as an oracle
`dev : Cmd → Bool` giving the `ok` outcome of each command round-trip,
and `json.loads` as an abstract `parse` function.  `sys.exit(n)` is
modelled by recording the exit code in the result value.
-/

/-- A learned code payload as cached by the recorder (the JSON dict the
ESP32 returns from `learn`): fields `type`, `value`, `bits`, `freq`,
`data`, each possibly absent. -/
structure Payload where
  type : Option String
  value : Option String
  bits : Option Nat
  freq : Option Nat
  data : Option (List Nat)
deriving DecidableEq

/-- A manifest (boot_config.json) entry: the payload fields plus the
boot metadata fields `send_on_boot`, `description`, `delay_before_ms`. -/
structure Entry where
  type : Option String
  value : Option String
  bits : Option Nat
  freq : Option Nat
  data : Option (List Nat)
  send_on_boot : Option Bool
  description : Option String
  delay_before_ms : Option Nat
deriving DecidableEq

/-- Commands the host issues to the ESP32 (the `cmd` JSON objects that
matter to the boot sender's replay path). -/
inductive Cmd where
  | ping
  | define (name ty value : String) (bits : Nat)
  | define_raw (name : String) (freq : Nat) (data : List Nat)
  | send (name : String) (repeats : Nat)
deriving DecidableEq

/-- Python's `str.upper()` on the (ASCII) type strings appearing in
manifests, mapped over the characters. -/
def strUpper (s : String) : String := ⟨s.data.map Char.toUpper⟩

/-- The name field of a command, `none` for `ping`. -/
def cmdName : Cmd → Option String
  | .ping => none
  | .define n _ _ _ => some n
  | .define_raw n _ _ => some n
  | .send n _ => some n

/-- A response dictionary as seen by `send_cmd` callers: `ok`, and the
optional `err` and `msg` fields. -/
structure Resp where
  ok : Bool
  err : Option String
  msg : Option String
deriving DecidableEq

/-- Outcome of `open_serial`: either an open connection after the given
number of open attempts, or `sys.exit code` after that many attempts. -/
inductive OpenResult where
  | opened (attempts : Nat)
  | exited (code : Nat) (attempts : Nat)
deriving DecidableEq

/-- State of the boot_config.json file on disk.  `truncated m` stands
for a file whose contents are an incomplete (hence structurally invalid)
JSON serialization of the prefix `m` of a manifest, as left behind by a
write that failed after `open(path, "w")` had already truncated the
file. -/
inductive FileContent where
  | absent
  | invalid
  | valid (m : List (String × Entry))
  | truncated (m : List (String × Entry))
deriving DecidableEq

namespace IrRecorder

/-- `ir_recorder.open_serial` (lines 40-48): a single
`serial.Serial(...)` attempt; on `SerialException` it prints an error
and calls `sys.exit(1)`.  `avail i` tells whether the i-th open attempt
(0-based) would succeed. -/
def open_serial (avail : Nat → Bool) : OpenResult :=
  if avail 0 then .opened 1 else .exited 1 1

/-- `ir_recorder.send_cmd` (lines 51-60): `raw = none` models an empty
`ser.readline()` (timeout / peer closed); `parse` models `json.loads`,
returning the decoded response or the exception text. -/
def send_cmd (parse : String → Except String Resp) (raw : Option String) : Resp :=
  match raw with
  | none => ⟨false, some "no_response", none⟩
  | some s =>
    match parse s with
    | .ok r => r
    | .error exc => ⟨false, some ("json_parse: " ++ exc), none⟩

/-- `ir_recorder.erase_code` (lines 164-176), state part: pops `name`
from the session cache and issues the device `erase`; `deviceOk` is the
device's `ok` reply.  Returns the new cache and whether the operation
is reported as a success (`resp.get("ok") or removed_local`). -/
def erase_code (cache : List (String × Payload)) (deviceOk : Bool) (name : String) :
    List (String × Payload) × Bool :=
  let removed_local := (List.lookup name cache).isSome
  (cache.filter (fun np => np.1 != name), deviceOk || removed_local)

/-- One entry of the `boot_cfg` dict built by `ir_recorder.save_codes`
(lines 194-210) for a cached payload, given the prior manifest entry of
the same name (if any).  `none` models the `KeyError` raised by
`payload["data"]` when a RAW payload has no `data` key. -/
def mkEntry (payload : Payload) (prior : Option Entry) : Option Entry :=
  if payload.type.getD "UNKNOWN" = "RAW" then
    match payload.data with
    | none => none
    | some d =>
      some ⟨some (payload.type.getD "UNKNOWN"), none, none,
            some (payload.freq.getD 38000), some d,
            some ((prior.bind Entry.send_on_boot).getD false),
            some ((prior.bind Entry.description).getD ""),
            some ((prior.bind Entry.delay_before_ms).getD 0)⟩
  else
    some ⟨some (payload.type.getD "UNKNOWN"),
          some (payload.value.getD "0x0"), some (payload.bits.getD 32),
          none, none,
          some ((prior.bind Entry.send_on_boot).getD false),
          some ((prior.bind Entry.description).getD ""),
          some ((prior.bind Entry.delay_before_ms).getD 0)⟩

/-- The `for name, payload in cache.items()` loop of `save_codes`
building `boot_cfg` (in cache iteration order). -/
def buildBootCfg (existing : List (String × Entry)) :
    List (String × Payload) → Option (List (String × Entry))
  | [] => some []
  | (name, payload) :: rest =>
    match mkEntry payload (List.lookup name existing), buildBootCfg existing rest with
    | some e, some m => some ((name, e) :: m)
    | _, _ => none

/-- `ir_recorder.save_codes` (lines 179-213), value part: the manifest
written to boot_config.json, given the session cache and the previously
persisted manifest (`existing`).  `none` when nothing is written (empty
cache, or a `KeyError` while building `boot_cfg`). -/
def save_codes (cache : List (String × Payload)) (existing : List (String × Entry)) :
    Option (List (String × Entry)) :=
  if cache.isEmpty then none else buildBootCfg existing cache

/-- The file write `with open(BOOT_CONFIG_FILE, "w") as f: json.dump(boot_cfg, f)`
(lines 212-213).  `open(path, "w")` truncates the file before anything
is written; `failAt = some k` models a failure (e.g. disk full) after
the first `k` entries were serialized, `none` a successful write. -/
def write_boot_config (_prior : FileContent) (m : List (String × Entry))
    (failAt : Option Nat) : FileContent :=
  match failAt with
  | none => .valid m
  | some k => .truncated (m.take k)

/-- `save_codes` end to end on the file: the empty-cache early return
and a `KeyError` both happen before the file is opened and leave the
prior file untouched; otherwise the file is rewritten in place. -/
def save_to_file (cache : List (String × Payload)) (existing : List (String × Entry))
    (prior : FileContent) (failAt : Option Nat) : FileContent :=
  if cache.isEmpty then prior
  else
    match buildBootCfg existing cache with
    | none => prior
    | some m => write_boot_config prior m failAt

end IrRecorder

namespace IrBootSender

/-- `PING_RETRIES = 5` (ir_boot_sender.py line 53). -/
def PING_RETRIES : Nat := 5

/-- `PING_RETRY_DELAY = 2` seconds (ir_boot_sender.py line 54). -/
def PING_RETRY_DELAY : Nat := 2

/-- The `for attempt in range(1, PING_RETRIES + 1)` loop of
`ir_boot_sender.open_serial` (lines 68-79): `made` attempts already
failed, `fuel` attempts remain.  Returns the outcome together with the
list of `time.sleep(PING_RETRY_DELAY)` delays performed between
attempts. -/
def open_serial_go (avail : Nat → Bool) : Nat → Nat → OpenResult × List Nat
  | made, 0 => (.exited 1 made, [])
  | made, fuel + 1 =>
    if avail made then (.opened (made + 1), [])
    else
      let r := open_serial_go avail (made + 1) fuel
      (r.1, PING_RETRY_DELAY :: r.2)

/-- `ir_boot_sender.open_serial` (lines 68-79): retries the open up to
`PING_RETRIES` times, sleeping `PING_RETRY_DELAY` seconds after each
failed attempt, and calls `sys.exit(1)` when all attempts fail. -/
def open_serial (avail : Nat → Bool) : OpenResult × List Nat :=
  open_serial_go avail 0 PING_RETRIES

/-- `ir_boot_sender.send_cmd` (lines 82-92), identical in behaviour to
`ir_recorder.send_cmd`. -/
def send_cmd (parse : String → Except String Resp) (raw : Option String) : Resp :=
  match raw with
  | none => ⟨false, some "no_response", none⟩
  | some s =>
    match parse s with
    | .ok r => r
    | .error exc => ⟨false, some ("json_parse: " ++ exc), none⟩

/-- `load_boot_config` (lines 110-119): returns the parsed manifest,
`none` modelling `sys.exit(1)` on a missing file or invalid JSON. -/
def load_boot_config : FileContent → Option (List (String × Entry))
  | .valid m => some m
  | _ => none

/-- The decoded-protocol tuple of `load_code_into_esp32`
(lines 147-149). -/
def DECODED_TYPES : List String :=
  ["NEC", "SONY", "RC5", "RC6", "SAMSUNG", "LG", "SHARP",
   "PANASONIC", "JVC", "WHYNTER", "AIWA_RC_T501", "SANYO",
   "MITSUBISHI", "DENON", "LEGO_PF", "BOSEWAVE", "MAGIQUEST"]

/-- The command `load_code_into_esp32` (lines 126-160) builds for an
entry, `none` when the entry is skipped with a warning: unknown type,
RAW with a falsy (`absent or empty`) `data`, or decoded protocol with
no `value`. -/
def buildLoadCmd (name : String) (entry : Entry) : Option Cmd :=
  let code_type := strUpper (entry.type.getD "")
  if code_type = "RAW" then
    match entry.data with
    | none => none
    | some data =>
      if data.isEmpty then none
      else some (.define_raw name (entry.freq.getD 38000) data)
  else if DECODED_TYPES.contains code_type then
    match entry.value with
    | none => none
    | some v => some (.define name code_type v (entry.bits.getD 32))
  else none

/-- `load_code_into_esp32` (lines 126-168): the commands it issues and
whether it returns True.  `dev` gives the device's `ok` for each
issued command. -/
def load_code_into_esp32 (dev : Cmd → Bool) (name : String) (entry : Entry) :
    List Cmd × Bool :=
  match buildLoadCmd name entry with
  | none => ([], false)
  | some c => ([c], dev c)

/-- `send_code` (lines 171-178): issues `send` with `repeats = 0`. -/
def send_code (dev : Cmd → Bool) (name : String) : List Cmd × Bool :=
  ([.send name 0], dev (.send name 0))

/-- One iteration of the `for name, entry in codes_to_send.items()`
loop of `main` (lines 222-239): push the code, then send it only if the
push succeeded; the Bool is whether this entry counts as sent. -/
def processEntry (dev : Cmd → Bool) (name : String) (entry : Entry) :
    List Cmd × Bool :=
  let lr := load_code_into_esp32 dev name entry
  if lr.2 then
    let sr := send_code dev name
    (lr.1 ++ sr.1, sr.2)
  else (lr.1, false)

/-- The whole send loop of `main` (lines 220-239): the commands issued,
and the final `(sent, failed)` tally. -/
def runEntries (dev : Cmd → Bool) : List (String × Entry) → List Cmd × (Nat × Nat)
  | [] => ([], (0, 0))
  | (name, entry) :: rest =>
    let pr := processEntry dev name entry
    let rr := runEntries dev rest
    (pr.1 ++ rr.1,
     (if pr.2 then rr.2.1 + 1 else rr.2.1, if pr.2 then rr.2.2 else rr.2.2 + 1))

/-- The filter `{k: v for k, v in config.items() if v.get("send_on_boot")}`
of `main` (line 200). -/
def codes_to_send (config : List (String × Entry)) : List (String × Entry) :=
  config.filter (fun ne => ne.2.send_on_boot.getD false)

/-- Observable outcome of one boot-sender run: the device commands
issued, the final tally, and the process exit code. -/
structure RunResult where
  cmds : List Cmd
  sent : Nat
  failed : Nat
  exitCode : Nat
deriving DecidableEq

/-- `ir_boot_sender.main` (lines 185-244) after a successful config
load, with the serial port assumed to open: filter the enabled entries
(`sys.exit(0)` if none), ping (up to `PING_RETRIES` pings, `sys.exit(1)`
if the device never answers pong), run the send loop, and exit 0 iff
`failed == 0`.  `dev .ping` tells whether a ping round-trip yields
`ok` and `msg == "pong"`. -/
def mainRun (dev : Cmd → Bool) (config : List (String × Entry)) : RunResult :=
  let toSend := codes_to_send config
  if toSend.isEmpty then ⟨[], 0, 0, 0⟩
  else if dev .ping then
    let rr := runEntries dev toSend
    ⟨.ping :: rr.1, rr.2.1, rr.2.2, if rr.2.2 = 0 then 0 else 1⟩
  else ⟨List.replicate PING_RETRIES .ping, 0, 0, 1⟩

/-- An entry `load_code_into_esp32` skips without issuing any command:
type neither RAW nor in the decoded list (after uppercasing), RAW with
absent or empty `data`, or decoded with absent `value`. -/
def badEntry (e : Entry) : Prop :=
  (strUpper (e.type.getD "") ≠ "RAW" ∧
    DECODED_TYPES.contains (strUpper (e.type.getD "")) = false) ∨
  (strUpper (e.type.getD "") = "RAW" ∧ (e.data = none ∨ e.data = some [])) ∨
  (DECODED_TYPES.contains (strUpper (e.type.getD "")) = true ∧ e.value = none)

instance (e : Entry) : Decidable (badEntry e) := by
  unfold badEntry; infer_instance

end IrBootSender

/-! Concrete values used to exercise the model at specific inputs. -/

/-- A raw capture, the example payload of the spec:
`freq=38000, data=[9024,4512,564,1692,564]`. -/
def pRaw0 : Payload :=
  ⟨some "RAW", none, none, some 38000, some [9024, 4512, 564, 1692, 564]⟩

/-- A decoded NEC capture (`type="NEC", value=0x20DF10EF, bits=32`). -/
def pNec0 : Payload := ⟨some "NEC", some "0x20DF10EF", some 32, none, none⟩

/-- A prior manifest entry with user-edited boot metadata. -/
def ePrior0 : Entry :=
  ⟨some "RAW", none, none, some 38000, some [1, 2],
   some true, some "main hall TV", some 500⟩

/-- A prior manifest entry under a name the session cache lacks. -/
def eOld0 : Entry :=
  ⟨some "NEC", some "0xAA", some 32, none, none, some true, some "old tv", some 0⟩

/-- An enabled NEC manifest entry named by its `value`. -/
def eNec (v : String) : Entry :=
  ⟨some "NEC", some v, some 32, none, none, some true, some "", some 0⟩

/-- A manifest entry with `send_on_boot` false. -/
def eNecOff : Entry :=
  ⟨some "NEC", some "0x2", some 32, none, none, some false, some "", some 0⟩

/-- An enabled manifest entry with an unknown type string. -/
def eBadType : Entry :=
  ⟨some "FOO", some "0x1", some 32, none, none, some true, some "", some 0⟩

/-- An enabled RAW manifest entry whose `data` field is empty. -/
def eRawEmpty : Entry :=
  ⟨some "RAW", none, none, some 38000, some [], some true, some "", some 0⟩

/-- Three enabled manifest entries named "a", "b", "c". -/
def config3 : List (String × Entry) :=
  [("a", eNec "0x1"), ("b", eNec "0x2"), ("c", eNec "0x3")]

/-- A device on which every command succeeds except the `define` push
of the code named "b" (entry 2 of `config3`). -/
def dev3 : Cmd → Bool
  | .define n _ _ _ => n != "b"
  | _ => true

/-- A device on which every command succeeds. -/
def devOk : Cmd → Bool := fun _ => true

/-- A config with one disabled and one enabled entry. -/
def config4 : List (String × Entry) := [("off", eNecOff), ("on", eNec "0x1")]

/-- A config whose enabled entries include a bad-typed one. -/
def config10 : List (String × Entry) := [("bad", eBadType), ("good", eNec "0x1")]

/-- A serial device that enumerates only from the second open attempt
on (attempt index 0 fails, attempts 1, 2, ... succeed). -/
def availLate : Nat → Bool := fun i => decide (1 ≤ i)

/-- A `json.loads` model that rejects every line, reporting the line
itself as the exception text. -/
def parseFail : String → Except String Resp := fun s => .error s

/-- A serial device that never enumerates. -/
def availNever : Nat → Bool := fun _ => false

/-- The entry `save_codes` writes for `pRaw0` when the prior manifest
maps the same name to `ePrior0`. -/
def eMerged0 : Entry :=
  ⟨some "RAW", none, none, some 38000, some [9024, 4512, 564, 1692, 564],
   some true, some "main hall TV", some 500⟩

/-- The manifest `save_codes` writes for cache `[("a", pRaw0)]` over
prior manifest `[("a", ePrior0)]`. -/
def mW1 : List (String × Entry) := [("a", eMerged0)]

/-- The entry `save_codes` writes for `pNec0` with no prior entry. -/
def eNewSaved : Entry :=
  ⟨some "NEC", some "0x20DF10EF", some 32, none, none, some false, some "", some 0⟩

/-- The manifest `save_codes` writes for cache `[("new", pNec0)]` over
prior manifest `[("old", eOld0)]`. -/
def mW2 : List (String × Entry) := [("new", eNewSaved)]

/-- The entry `save_codes` writes for `pRaw0` with no prior entry. -/
def eSavedRaw0 : Entry :=
  ⟨some "RAW", none, none, some 38000, some [9024, 4512, 564, 1692, 564],
   some false, some "", some 0⟩

/-- The manifest `save_codes` writes for cache `[("a", pRaw0)]` over an
empty prior manifest. -/
def mW9 : List (String × Entry) := [("a", eSavedRaw0)]

/-! Helper lemmas. -/

theorem lookup_cons_self {β : Type} {a : String} {b : β} {l : List (String × β)} :
    List.lookup a ((a, b) :: l) = some b := by
  simp [List.lookup_cons]

theorem lookup_cons_ne {β : Type} {a k : String} {b : β} {l : List (String × β)}
    (h : a ≠ k) : List.lookup a ((k, b) :: l) = List.lookup a l := by
  rw [List.lookup_cons]
  cases hk : a == k with
  | true => exact absurd (beq_iff_eq.mp hk) h
  | false => rfl

theorem mem_map_fst {α β : Type} {l : List (α × β)} {a : α} {b : β}
    (h : (a, b) ∈ l) : a ∈ l.map Prod.fst :=
  List.mem_map.mpr ⟨(a, b), h, rfl⟩

theorem nodup_keys_unique {α β : Type} {l : List (α × β)}
    (hnd : (l.map Prod.fst).Nodup) {a : α} {b1 b2 : β}
    (h1 : (a, b1) ∈ l) (h2 : (a, b2) ∈ l) : b1 = b2 := by
  induction l with
  | nil => cases h1
  | cons hd tl ih =>
    rw [List.map_cons, List.nodup_cons] at hnd
    rcases List.mem_cons.mp h1 with e1 | m1
    · rcases List.mem_cons.mp h2 with e2 | m2
      · exact congrArg Prod.snd (e1.trans e2.symm)
      · exfalso
        obtain ⟨ha, _⟩ := Prod.ext_iff.mp e1
        exact hnd.1 (ha ▸ mem_map_fst m2)
    · rcases List.mem_cons.mp h2 with e2 | m2
      · exfalso
        obtain ⟨ha, _⟩ := Prod.ext_iff.mp e2
        exact hnd.1 (ha ▸ mem_map_fst m1)
      · exact ih hnd.2 m1 m2

theorem mkEntry_spec {p : Payload} {prior : Option Entry} {e : Entry}
    (h : IrRecorder.mkEntry p prior = some e) :
    e.type = some (p.type.getD "UNKNOWN") ∧
    e.send_on_boot = some ((prior.bind Entry.send_on_boot).getD false) ∧
    e.description = some ((prior.bind Entry.description).getD "") ∧
    e.delay_before_ms = some ((prior.bind Entry.delay_before_ms).getD 0) ∧
    (p.type.getD "UNKNOWN" = "RAW" →
      e.freq = some (p.freq.getD 38000) ∧ e.data = p.data) ∧
    (p.type.getD "UNKNOWN" ≠ "RAW" →
      e.value = some (p.value.getD "0x0") ∧ e.bits = some (p.bits.getD 32)) := by
  unfold IrRecorder.mkEntry at h
  split at h
  · rename_i ht
    cases hd : p.data with
    | none => rw [hd] at h; simp at h
    | some d =>
      rw [hd] at h
      injection h with h
      subst h
      exact ⟨rfl, rfl, rfl, rfl, fun _ => ⟨rfl, rfl⟩, fun hne => absurd ht hne⟩
  · rename_i ht
    injection h with h
    subst h
    exact ⟨rfl, rfl, rfl, rfl, fun hr => absurd hr ht, fun _ => ⟨rfl, rfl⟩⟩

theorem buildBootCfg_lookup (existing : List (String × Entry)) :
    ∀ (cache : List (String × Payload)) (m : List (String × Entry)),
      IrRecorder.buildBootCfg existing cache = some m →
      (cache.map Prod.fst).Nodup →
      ∀ name payload, (name, payload) ∈ cache →
      ∃ e, List.lookup name m = some e ∧
        IrRecorder.mkEntry payload (List.lookup name existing) = some e := by
  intro cache
  induction cache with
  | nil => intro m _ _ name payload hc; simp at hc
  | cons hd tl ih =>
    intro m hm hnd name payload hc
    obtain ⟨n0, p0⟩ := hd
    rw [IrRecorder.buildBootCfg] at hm
    cases he : IrRecorder.mkEntry p0 (List.lookup n0 existing) with
    | none => rw [he] at hm; simp at hm
    | some e0 =>
      cases hb : IrRecorder.buildBootCfg existing tl with
      | none => rw [he, hb] at hm; simp at hm
      | some m' =>
        rw [he, hb] at hm
        injection hm with hm
        subst hm
        rw [List.map_cons, List.nodup_cons] at hnd
        rcases List.mem_cons.mp hc with heq | hmem
        · obtain ⟨h1, h2⟩ := Prod.ext_iff.mp heq
          subst h1
          subst h2
          exact ⟨e0, lookup_cons_self, he⟩
        · have hne : name ≠ n0 := fun hh => hnd.1 (hh ▸ mem_map_fst hmem)
          obtain ⟨e, hl, hmk⟩ := ih m' hb hnd.2 name payload hmem
          exact ⟨e, (lookup_cons_ne hne).trans hl, hmk⟩

theorem buildBootCfg_map_fst (existing : List (String × Entry)) :
    ∀ (cache : List (String × Payload)) (m : List (String × Entry)),
      IrRecorder.buildBootCfg existing cache = some m →
      m.map Prod.fst = cache.map Prod.fst := by
  intro cache
  induction cache with
  | nil =>
    intro m hm
    rw [IrRecorder.buildBootCfg] at hm
    injection hm with hm
    subst hm
    rfl
  | cons hd tl ih =>
    intro m hm
    obtain ⟨n0, p0⟩ := hd
    rw [IrRecorder.buildBootCfg] at hm
    cases he : IrRecorder.mkEntry p0 (List.lookup n0 existing) with
    | none => rw [he] at hm; simp at hm
    | some e0 =>
      cases hb : IrRecorder.buildBootCfg existing tl with
      | none => rw [he, hb] at hm; simp at hm
      | some m' =>
        rw [he, hb] at hm
        injection hm with hm
        subst hm
        rw [List.map_cons, List.map_cons, ih m' hb]

theorem buildLoadCmd_name {n : String} {e : Entry} {c : Cmd}
    (h : IrBootSender.buildLoadCmd n e = some c) : cmdName c = some n := by
  simp only [IrBootSender.buildLoadCmd] at h
  split at h
  · cases hd : e.data with
    | none => rw [hd] at h; simp at h
    | some d =>
      rw [hd] at h
      dsimp only at h
      split at h
      · simp at h
      · injection h with h
        subst h
        rfl
  · split at h
    · cases hv : e.value with
      | none => rw [hv] at h; simp at h
      | some v =>
        rw [hv] at h
        injection h with h
        subst h
        rfl
    · simp at h

theorem processEntry_names (dev : Cmd → Bool) (name : String) (entry : Entry) :
    ∀ c ∈ (IrBootSender.processEntry dev name entry).1, cmdName c = some name := by
  intro c hc
  unfold IrBootSender.processEntry IrBootSender.load_code_into_esp32 at hc
  cases hB : IrBootSender.buildLoadCmd name entry with
  | none => rw [hB] at hc; simp at hc
  | some c0 =>
    rw [hB] at hc
    dsimp only at hc
    split at hc
    · simp only [IrBootSender.send_code, List.cons_append, List.nil_append] at hc
      rcases List.mem_cons.mp hc with rfl | hc
      · exact buildLoadCmd_name hB
      · rcases List.mem_cons.mp hc with rfl | hc
        · rfl
        · simp at hc
    · rcases List.mem_cons.mp hc with rfl | hc
      · exact buildLoadCmd_name hB
      · simp at hc

theorem runEntries_names (dev : Cmd → Bool) :
    ∀ (l : List (String × Entry)) (c : Cmd), c ∈ (IrBootSender.runEntries dev l).1 →
      ∃ ne ∈ l, cmdName c = some ne.1 := by
  intro l
  induction l with
  | nil => intro c hc; simp [IrBootSender.runEntries] at hc
  | cons hd tl ih =>
    intro c hc
    obtain ⟨n0, e0⟩ := hd
    rw [IrBootSender.runEntries] at hc
    dsimp only at hc
    rcases List.mem_append.mp hc with hc | hc
    · exact ⟨(n0, e0), List.mem_cons_self _ _, processEntry_names dev n0 e0 c hc⟩
    · obtain ⟨ne, hne, hcn⟩ := ih c hc
      exact ⟨ne, List.mem_cons_of_mem _ hne, hcn⟩

theorem runEntries_sent (dev : Cmd → Bool) :
    ∀ l : List (String × Entry),
      (IrBootSender.runEntries dev l).2.1 =
        l.countP (fun ne => (IrBootSender.processEntry dev ne.1 ne.2).2) := by
  intro l
  induction l with
  | nil => rfl
  | cons hd tl ih =>
    obtain ⟨n0, e0⟩ := hd
    rw [IrBootSender.runEntries, List.countP_cons]
    dsimp only
    cases hp : (IrBootSender.processEntry dev n0 e0).2 <;> simp [hp, ih]

theorem runEntries_failed (dev : Cmd → Bool) :
    ∀ l : List (String × Entry),
      (IrBootSender.runEntries dev l).2.2 =
        l.countP (fun ne => !(IrBootSender.processEntry dev ne.1 ne.2).2) := by
  intro l
  induction l with
  | nil => rfl
  | cons hd tl ih =>
    obtain ⟨n0, e0⟩ := hd
    rw [IrBootSender.runEntries, List.countP_cons]
    dsimp only
    cases hp : (IrBootSender.processEntry dev n0 e0).2 <;> simp [hp, ih]

theorem runEntries_total (dev : Cmd → Bool) :
    ∀ l : List (String × Entry),
      (IrBootSender.runEntries dev l).2.1 + (IrBootSender.runEntries dev l).2.2 =
        l.length := by
  intro l
  induction l with
  | nil => rfl
  | cons hd tl ih =>
    obtain ⟨n0, e0⟩ := hd
    rw [IrBootSender.runEntries, List.length_cons]
    dsimp only
    cases hp : (IrBootSender.processEntry dev n0 e0).2 <;> simp [hp] <;> omega

theorem runEntries_failed_pos (dev : Cmd → Bool) {l : List (String × Entry)}
    {n : String} {e : Entry} (hmem : (n, e) ∈ l)
    (hfail : (IrBootSender.processEntry dev n e).2 = false) :
    1 ≤ (IrBootSender.runEntries dev l).2.2 := by
  rw [runEntries_failed]
  have : 0 < l.countP (fun ne => !(IrBootSender.processEntry dev ne.1 ne.2).2) :=
    List.countP_pos_iff.mpr ⟨(n, e), hmem, by simp [hfail]⟩
  omega

theorem badEntry_buildLoadCmd {e : Entry} (hbad : IrBootSender.badEntry e)
    (n : String) : IrBootSender.buildLoadCmd n e = none := by
  have hRAW : IrBootSender.DECODED_TYPES.contains "RAW" = false := by decide
  unfold IrBootSender.badEntry at hbad
  simp only [IrBootSender.buildLoadCmd]
  rcases hbad with ⟨h1, h2⟩ | ⟨h1, h2⟩ | ⟨h1, h2⟩
  · rw [if_neg h1, if_neg (ne_true_of_eq_false h2)]
  · rcases h2 with h2 | h2 <;> simp [h1, h2]
  · have h1' : strUpper (e.type.getD "") ≠ "RAW" := by
      intro hh
      rw [hh] at h1
      rw [hRAW] at h1
      cases h1
    rw [if_neg h1', if_pos h1, h2]

/-! Claim theorems. -/

/-- Claim C1: for every session cache and every prior manifest, each
entry emitted by a save carries payload fields taken from the freshly
learned payload (type, plus freq/data for RAW codes and value/bits for
the others), while its boot metadata fields are taken from the prior
manifest entry of the same name when one exists, and otherwise default
to false, the empty string, and 0. -/
theorem save_merges_fresh_payload_with_prior_metadata
    (cache : List (String × Payload)) (existing m : List (String × Entry))
    (name : String) (payload : Payload)
    (hm : IrRecorder.save_codes cache existing = some m)
    (hnd : (cache.map Prod.fst).Nodup)
    (hc : (name, payload) ∈ cache) :
    (List.lookup name m).bind Entry.type = some (payload.type.getD "UNKNOWN") ∧
    (payload.type.getD "UNKNOWN" = "RAW" →
      (List.lookup name m).bind Entry.freq = some (payload.freq.getD 38000) ∧
      (List.lookup name m).bind Entry.data = payload.data) ∧
    (payload.type.getD "UNKNOWN" ≠ "RAW" →
      (List.lookup name m).bind Entry.value = some (payload.value.getD "0x0") ∧
      (List.lookup name m).bind Entry.bits = some (payload.bits.getD 32)) ∧
    (List.lookup name m).bind Entry.send_on_boot =
      some (((List.lookup name existing).bind Entry.send_on_boot).getD false) ∧
    (List.lookup name m).bind Entry.description =
      some (((List.lookup name existing).bind Entry.description).getD "") ∧
    (List.lookup name m).bind Entry.delay_before_ms =
      some (((List.lookup name existing).bind Entry.delay_before_ms).getD 0) := by
  unfold IrRecorder.save_codes at hm
  split at hm
  · exact Option.noConfusion hm
  · obtain ⟨e, hl, hmk⟩ := buildBootCfg_lookup existing cache m hm hnd name payload hc
    obtain ⟨h1, h2, h3, h4, h5, h6⟩ := mkEntry_spec hmk
    rw [hl]
    refine ⟨by rw [Option.some_bind, h1], fun hr => ?_, fun hr => ?_,
      by rw [Option.some_bind, h2], by rw [Option.some_bind, h3],
      by rw [Option.some_bind, h4]⟩
    · obtain ⟨hf, hd⟩ := h5 hr
      exact ⟨by rw [Option.some_bind, hf], by rw [Option.some_bind, hd]⟩
    · obtain ⟨hv, hb⟩ := h6 hr
      exact ⟨by rw [Option.some_bind, hv], by rw [Option.some_bind, hb]⟩

/-- Witness for C1: a concrete RAW capture saved over a prior entry
with user-edited boot metadata. -/
theorem save_merges_fresh_payload_with_prior_metadata_witness :
    IrRecorder.save_codes [("a", pRaw0)] [("a", ePrior0)] = some mW1 ∧
    (([("a", pRaw0)] : List (String × Payload)).map Prod.fst).Nodup ∧
    ("a", pRaw0) ∈ ([("a", pRaw0)] : List (String × Payload)) ∧
    ((List.lookup "a" mW1).bind Entry.type = some (pRaw0.type.getD "UNKNOWN") ∧
     (pRaw0.type.getD "UNKNOWN" = "RAW" →
       (List.lookup "a" mW1).bind Entry.freq = some (pRaw0.freq.getD 38000) ∧
       (List.lookup "a" mW1).bind Entry.data = pRaw0.data) ∧
     (pRaw0.type.getD "UNKNOWN" ≠ "RAW" →
       (List.lookup "a" mW1).bind Entry.value = some (pRaw0.value.getD "0x0") ∧
       (List.lookup "a" mW1).bind Entry.bits = some (pRaw0.bits.getD 32)) ∧
     (List.lookup "a" mW1).bind Entry.send_on_boot =
       some (((List.lookup "a" [("a", ePrior0)]).bind Entry.send_on_boot).getD false) ∧
     (List.lookup "a" mW1).bind Entry.description =
       some (((List.lookup "a" [("a", ePrior0)]).bind Entry.description).getD "") ∧
     (List.lookup "a" mW1).bind Entry.delay_before_ms =
       some (((List.lookup "a" [("a", ePrior0)]).bind Entry.delay_before_ms).getD 0)) :=
  ⟨by decide, by decide, by decide,
   save_merges_fresh_payload_with_prior_metadata [("a", pRaw0)] [("a", ePrior0)] mW1
     "a" pRaw0 (by decide) (by decide) (by decide)⟩

/-- Claim C2 counterexample: saving a session cache that lacks a name
present in the prior manifest drops that prior entry from the persisted
manifest, although no erase of it ever happened. -/
theorem save_drops_unlearned_prior_entry :
    IrRecorder.save_codes [("new", pNec0)] [("old", eOld0)] = some mW2 ∧
    "old" ∈ ([("old", eOld0)] : List (String × Entry)).map Prod.fst ∧
    "old" ∉ mW2.map Prod.fst :=
  ⟨by decide, by decide, by decide⟩

/-- Claim C2 (amended): after a save the persisted manifest holds
exactly the session-cache names; a prior manifest entry survives a save
iff its name is in the session cache (contributing only its boot
metadata), and prior entries whose names the cache lacks are dropped. -/
theorem save_keeps_exactly_session_names
    (cache : List (String × Payload)) (existing m : List (String × Entry))
    (hm : IrRecorder.save_codes cache existing = some m) :
    m.map Prod.fst = cache.map Prod.fst := by
  unfold IrRecorder.save_codes at hm
  split at hm
  · exact Option.noConfusion hm
  · exact buildBootCfg_map_fst existing cache m hm

/-- Witness for the amended C2. -/
theorem save_keeps_exactly_session_names_witness :
    IrRecorder.save_codes [("a", pRaw0)] [("old", eOld0)] = some mW9 ∧
    mW9.map Prod.fst = ([("a", pRaw0)] : List (String × Payload)).map Prod.fst :=
  ⟨by decide,
   save_keeps_exactly_session_names [("a", pRaw0)] [("old", eOld0)] mW9 (by decide)⟩

/-- Claim C3 counterexample: a failure during the manifest write leaves
a truncated file (the `open(path, "w")` already truncated it), not the
previously persisted manifest. -/
theorem save_write_failure_clobbers_prior_file :
    IrRecorder.save_to_file [("new", pNec0)] [] (FileContent.valid [("old", eOld0)])
      (some 0) = FileContent.truncated [] ∧
    FileContent.truncated [] ≠ FileContent.valid [("old", eOld0)] :=
  ⟨by decide, by decide⟩

/-- Claim C3 (amended): a successful write persists the whole updated
manifest, but the write is not atomic: the file is opened with
truncation, so a write failing after the open leaves a truncated prefix
of the new manifest rather than the prior file; the prior file survives
only when the write never starts (empty cache, or failure while
building the entries, before the open). -/
theorem save_write_succeeds_whole_or_truncates
    (cache : List (String × Payload)) (existing m : List (String × Entry))
    (prior : FileContent) (k : Nat)
    (hm : IrRecorder.buildBootCfg existing cache = some m)
    (hne : cache.isEmpty = false) :
    IrRecorder.save_to_file cache existing prior none = FileContent.valid m ∧
    IrRecorder.save_to_file cache existing prior (some k) =
      FileContent.truncated (m.take k) := by
  constructor <;>
    simp [IrRecorder.save_to_file, hne, hm, IrRecorder.write_boot_config]

/-- Witness for the amended C3. -/
theorem save_write_succeeds_whole_or_truncates_witness :
    IrRecorder.buildBootCfg [] [("a", pRaw0)] = some mW9 ∧
    ([("a", pRaw0)] : List (String × Payload)).isEmpty = false ∧
    (IrRecorder.save_to_file [("a", pRaw0)] [] FileContent.absent none =
       FileContent.valid mW9 ∧
     IrRecorder.save_to_file [("a", pRaw0)] [] FileContent.absent (some 0) =
       FileContent.truncated (mW9.take 0)) :=
  ⟨by decide, by decide,
   save_write_succeeds_whole_or_truncates [("a", pRaw0)] [] mW9 FileContent.absent 0
     (by decide) (by decide)⟩

theorem lookup_filter_ne (name : String) (cache : List (String × Payload)) :
    List.lookup name (cache.filter fun np => np.1 != name) = none := by
  induction cache with
  | nil => rfl
  | cons hd tl ih =>
    obtain ⟨k, v⟩ := hd
    rw [List.filter_cons]
    by_cases hk : k = name
    · rw [if_neg (by simp [hk])]
      exact ih
    · rw [if_pos (by simp [hk])]
      exact (lookup_cons_ne fun h => hk h.symm).trans ih

/-- Claim C6 counterexample: with the device enumerating only from the
second open attempt on, the recorder front end exits non-zero after a
single open attempt instead of retrying, while the boot sender's retry
loop opens the port on attempt 2 after one 2-second delay. -/
theorem recorder_open_does_not_retry :
    IrRecorder.open_serial availLate = OpenResult.exited 1 1 ∧
    IrBootSender.open_serial availLate =
      (OpenResult.opened 2, [IrBootSender.PING_RETRY_DELAY]) :=
  ⟨by decide, by decide⟩

/-- Claim C6 (amended): the boot sender's connect retries up to 5
attempts with a 2-second delay after each failed attempt and exits with
status 1 on exhaustion; the recorder's connect makes a single attempt
and exits with status 1 immediately when it fails.  In both front ends
an unavailable device is fatal (non-zero exit), never a hang. -/
theorem open_serial_retry_and_fatal_exit
    (avail : Nat → Bool)
    (h0 : avail 0 = false) (h1 : avail 1 = false) (h2 : avail 2 = false)
    (h3 : avail 3 = false) (h4 : avail 4 = false) :
    IrBootSender.open_serial avail =
      (OpenResult.exited 1 IrBootSender.PING_RETRIES,
       List.replicate IrBootSender.PING_RETRIES IrBootSender.PING_RETRY_DELAY) ∧
    IrRecorder.open_serial avail = OpenResult.exited 1 1 := by
  constructor
  · show IrBootSender.open_serial_go avail 0 IrBootSender.PING_RETRIES = _
    simp only [IrBootSender.PING_RETRIES, IrBootSender.open_serial_go,
      h0, h1, h2, h3, h4, Bool.false_eq_true, if_false]
    rfl
  · simp [IrRecorder.open_serial, h0]

/-- Witness for the amended C6: a device that never enumerates. -/
theorem open_serial_retry_and_fatal_exit_witness :
    availNever 0 = false ∧ availNever 1 = false ∧ availNever 2 = false ∧
    availNever 3 = false ∧ availNever 4 = false ∧
    (IrBootSender.open_serial availNever =
      (OpenResult.exited 1 IrBootSender.PING_RETRIES,
       List.replicate IrBootSender.PING_RETRIES IrBootSender.PING_RETRY_DELAY) ∧
     IrRecorder.open_serial availNever = OpenResult.exited 1 1) :=
  ⟨rfl, rfl, rfl, rfl, rfl,
   open_serial_retry_and_fatal_exit availNever rfl rfl rfl rfl rfl⟩

/-- Claim C7: an empty response line is returned as the synthetic
response with ok=false and err="no_response", and a line json.loads
rejects as ok=false with a "json_parse: ..." err, in both front ends;
in both cases the caller receives a response-shaped value rather than
an uncaught fault. -/
theorem send_cmd_synthesizes_failure_responses
    (parse : String → Except String Resp) (raw : Option String) :
    (raw = none →
      IrRecorder.send_cmd parse raw = ⟨false, some "no_response", none⟩ ∧
      IrBootSender.send_cmd parse raw = ⟨false, some "no_response", none⟩) ∧
    (∀ s exc, raw = some s → parse s = .error exc →
      IrRecorder.send_cmd parse raw = ⟨false, some ("json_parse: " ++ exc), none⟩ ∧
      IrBootSender.send_cmd parse raw = ⟨false, some ("json_parse: " ++ exc), none⟩) := by
  constructor
  · rintro rfl
    exact ⟨rfl, rfl⟩
  · rintro s exc rfl hp
    constructor
    · simp [IrRecorder.send_cmd, hp]
    · simp [IrBootSender.send_cmd, hp]

/-- Witness for C7: an empty read and an unparsable line. -/
theorem send_cmd_synthesizes_failure_responses_witness :
    IrRecorder.send_cmd parseFail none = ⟨false, some "no_response", none⟩ ∧
    IrBootSender.send_cmd parseFail (some "oops") =
      ⟨false, some ("json_parse: " ++ "oops"), none⟩ :=
  ⟨((send_cmd_synthesizes_failure_responses parseFail none).1 rfl).1,
   ((send_cmd_synthesizes_failure_responses parseFail (some "oops")).2 "oops" "oops"
      rfl rfl).2⟩

/-- Claim C8: erase removes the name from the session cache and issues
the device erase independently; it reports success iff the cache held
the name or the device's erase succeeded, and failure exactly when both
miss; in particular a name held only in the cache erases successfully
even when the device reports failure. -/
theorem erase_succeeds_iff_cache_or_device
    (cache : List (String × Payload)) (deviceOk : Bool) (name : String) :
    (IrRecorder.erase_code cache deviceOk name).2 =
      (deviceOk || (List.lookup name cache).isSome) ∧
    ((IrRecorder.erase_code cache deviceOk name).2 = false ↔
      deviceOk = false ∧ List.lookup name cache = none) ∧
    List.lookup name (IrRecorder.erase_code cache deviceOk name).1 = none ∧
    (IrRecorder.erase_code cache false name).2 = (List.lookup name cache).isSome := by
  refine ⟨rfl, ?_, lookup_filter_ne name cache, by simp [IrRecorder.erase_code]⟩
  cases deviceOk <;> cases h : List.lookup name cache <;>
    simp [IrRecorder.erase_code, h]

/-- Claim C9: a RAW capture's freq and data fields round-trip unchanged
through a save of the manifest followed by a load. -/
theorem raw_code_roundtrips_through_save_load
    (cache : List (String × Payload)) (existing m : List (String × Entry))
    (name : String) (payload : Payload) (f : Nat) (d : List Nat)
    (hm : IrRecorder.save_codes cache existing = some m)
    (hnd : (cache.map Prod.fst).Nodup)
    (hc : (name, payload) ∈ cache)
    (ht : payload.type = some "RAW") (hf : payload.freq = some f)
    (hd : payload.data = some d) :
    IrBootSender.load_boot_config (FileContent.valid m) = some m ∧
    (List.lookup name m).bind Entry.freq = some f ∧
    (List.lookup name m).bind Entry.data = some d := by
  unfold IrRecorder.save_codes at hm
  split at hm
  · exact Option.noConfusion hm
  · obtain ⟨e, hl, hmk⟩ := buildBootCfg_lookup existing cache m hm hnd name payload hc
    obtain ⟨_, _, _, _, h5, _⟩ := mkEntry_spec hmk
    have hr : payload.type.getD "UNKNOWN" = "RAW" := by rw [ht]; rfl
    obtain ⟨hfreq, hdata⟩ := h5 hr
    refine ⟨rfl, ?_, ?_⟩
    · rw [hl, Option.some_bind, hfreq, hf]
      rfl
    · rw [hl, Option.some_bind, hdata, hd]

/-- Witness for C9 at the spec's example raw code
(freq=38000, data=[9024,4512,564,1692,564]). -/
theorem raw_code_roundtrips_through_save_load_witness :
    IrRecorder.save_codes [("a", pRaw0)] [] = some mW9 ∧
    (([("a", pRaw0)] : List (String × Payload)).map Prod.fst).Nodup ∧
    ("a", pRaw0) ∈ ([("a", pRaw0)] : List (String × Payload)) ∧
    pRaw0.type = some "RAW" ∧ pRaw0.freq = some 38000 ∧
    pRaw0.data = some [9024, 4512, 564, 1692, 564] ∧
    (IrBootSender.load_boot_config (FileContent.valid mW9) = some mW9 ∧
     (List.lookup "a" mW9).bind Entry.freq = some 38000 ∧
     (List.lookup "a" mW9).bind Entry.data = some [9024, 4512, 564, 1692, 564]) :=
  ⟨by decide, by decide, by decide, by decide, by decide, by decide,
   raw_code_roundtrips_through_save_load [("a", pRaw0)] [] mW9 "a" pRaw0 38000
     [9024, 4512, 564, 1692, 564] (by decide) (by decide) (by decide) (by decide)
     (by decide) (by decide)⟩

theorem mainRun_empty (dev : Cmd → Bool) (config : List (String × Entry))
    (he : (IrBootSender.codes_to_send config).isEmpty = true) :
    IrBootSender.mainRun dev config = ⟨[], 0, 0, 0⟩ := by
  simp [IrBootSender.mainRun, he]

theorem mainRun_noPing (dev : Cmd → Bool) (config : List (String × Entry))
    (hp : dev Cmd.ping = false)
    (hne : (IrBootSender.codes_to_send config).isEmpty = false) :
    IrBootSender.mainRun dev config =
      ⟨List.replicate IrBootSender.PING_RETRIES Cmd.ping, 0, 0, 1⟩ := by
  simp [IrBootSender.mainRun, hne, hp]

theorem mainRun_eq (dev : Cmd → Bool) (config : List (String × Entry))
    (hping : dev Cmd.ping = true)
    (hne : (IrBootSender.codes_to_send config).isEmpty = false) :
    IrBootSender.mainRun dev config =
      ⟨Cmd.ping :: (IrBootSender.runEntries dev (IrBootSender.codes_to_send config)).1,
       (IrBootSender.runEntries dev (IrBootSender.codes_to_send config)).2.1,
       (IrBootSender.runEntries dev (IrBootSender.codes_to_send config)).2.2,
       if (IrBootSender.runEntries dev (IrBootSender.codes_to_send config)).2.2 = 0
         then 0 else 1⟩ := by
  simp [IrBootSender.mainRun, hne, hping]

/-- Claim C4: the boot sender never issues a define, define_raw, or
send command for a code whose manifest entry does not have send_on_boot
true (false or absent): every command of the run's trace avoids the
disabled entry's name (pings carry no name). -/
theorem sender_never_touches_disabled_entries
    (dev : Cmd → Bool) (config : List (String × Entry)) (n : String) (e : Entry)
    (hnd : (config.map Prod.fst).Nodup)
    (hmem : (n, e) ∈ config)
    (hoff : e.send_on_boot.getD false = false) :
    ((IrBootSender.mainRun dev config).cmds.all
      fun c => cmdName c != some n) = true := by
  rw [List.all_eq_true]
  intro c hc
  rw [bne_iff_ne]
  intro hcn
  cases he : (IrBootSender.codes_to_send config).isEmpty with
  | true =>
    rw [mainRun_empty dev config he] at hc
    simp at hc
  | false =>
    cases hp : dev Cmd.ping with
    | false =>
      rw [mainRun_noPing dev config hp he] at hc
      have := List.eq_of_mem_replicate hc
      subst this
      exact Option.noConfusion hcn
    | true =>
      rw [mainRun_eq dev config hp he] at hc
      rcases List.mem_cons.mp hc with rfl | hc
      · exact Option.noConfusion hcn
      · obtain ⟨ne, hneTS, hname⟩ := runEntries_names dev _ c hc
        rw [hname] at hcn
        injection hcn with hcn
        unfold IrBootSender.codes_to_send at hneTS
        rw [List.mem_filter] at hneTS
        obtain ⟨hin, hon⟩ := hneTS
        have hin' : (n, ne.2) ∈ config := by
          have hh : (ne.1, ne.2) = ne := Prod.mk.eta
          rw [← hcn, hh]
          exact hin
        have hEq : ne.2 = e := nodup_keys_unique hnd hin' hmem
        rw [hEq, hoff] at hon
        exact Bool.noConfusion hon

/-- Witness for C4: a config with a disabled and an enabled entry. -/
theorem sender_never_touches_disabled_entries_witness :
    (config4.map Prod.fst).Nodup ∧
    ("off", eNecOff) ∈ config4 ∧
    eNecOff.send_on_boot.getD false = false ∧
    ((IrBootSender.mainRun devOk config4).cmds.all
      fun c => cmdName c != some "off") = true :=
  ⟨by decide, by decide, by decide,
   sender_never_touches_disabled_entries devOk config4 "off" eNecOff
     (by decide) (by decide) (by decide)⟩

/-- Claim C5: the boot sender processes every enabled entry regardless
of earlier outcomes — sent counts the entries whose push and send both
succeed, failed counts the rest, and together they cover all enabled
entries — with exit status 0 iff failed = 0; concretely, for 3 enabled
entries where entry 2's push fails, sent=2, failed=1, exit code 1. -/
theorem sender_tallies_entries_independently
    (dev : Cmd → Bool) (config : List (String × Entry))
    (hping : dev Cmd.ping = true) :
    ((IrBootSender.mainRun dev config).sent =
       (IrBootSender.codes_to_send config).countP
         (fun ne => (IrBootSender.processEntry dev ne.1 ne.2).2) ∧
     (IrBootSender.mainRun dev config).failed =
       (IrBootSender.codes_to_send config).countP
         (fun ne => !(IrBootSender.processEntry dev ne.1 ne.2).2) ∧
     (IrBootSender.mainRun dev config).sent +
       (IrBootSender.mainRun dev config).failed =
       (IrBootSender.codes_to_send config).length ∧
     (IrBootSender.mainRun dev config).exitCode =
       (if (IrBootSender.mainRun dev config).failed = 0 then 0 else 1)) ∧
    ((IrBootSender.mainRun dev3 config3).sent = 2 ∧
     (IrBootSender.mainRun dev3 config3).failed = 1 ∧
     (IrBootSender.mainRun dev3 config3).exitCode = 1) := by
  constructor
  · cases he : (IrBootSender.codes_to_send config).isEmpty with
    | true =>
      have h0 : IrBootSender.codes_to_send config = [] := List.isEmpty_iff.mp he
      rw [mainRun_empty dev config he, h0]
      exact ⟨rfl, rfl, rfl, rfl⟩
    | false =>
      rw [mainRun_eq dev config hping he]
      exact ⟨runEntries_sent dev _, runEntries_failed dev _, runEntries_total dev _, rfl⟩
  · exact ⟨by decide, by decide, by decide⟩

/-- Witness for C5 at the concrete 3-entry scenario. -/
theorem sender_tallies_entries_independently_witness :
    dev3 Cmd.ping = true ∧
    (((IrBootSender.mainRun dev3 config3).sent =
        (IrBootSender.codes_to_send config3).countP
          (fun ne => (IrBootSender.processEntry dev3 ne.1 ne.2).2) ∧
      (IrBootSender.mainRun dev3 config3).failed =
        (IrBootSender.codes_to_send config3).countP
          (fun ne => !(IrBootSender.processEntry dev3 ne.1 ne.2).2) ∧
      (IrBootSender.mainRun dev3 config3).sent +
        (IrBootSender.mainRun dev3 config3).failed =
        (IrBootSender.codes_to_send config3).length ∧
      (IrBootSender.mainRun dev3 config3).exitCode =
        (if (IrBootSender.mainRun dev3 config3).failed = 0 then 0 else 1)) ∧
     ((IrBootSender.mainRun dev3 config3).sent = 2 ∧
      (IrBootSender.mainRun dev3 config3).failed = 1 ∧
      (IrBootSender.mainRun dev3 config3).exitCode = 1)) :=
  ⟨rfl, sender_tallies_entries_independently dev3 config3 rfl⟩

/-- Claim C10: an enabled manifest entry whose uppercased type is
neither RAW nor a known decoded protocol, or a RAW entry with absent or
empty data, or a decoded entry with no value, gets no define or
define_raw command, is counted as failed (forcing exit code 1), and the
remaining enabled entries are still all processed. -/
theorem sender_fails_and_skips_malformed_entries
    (dev : Cmd → Bool) (config : List (String × Entry)) (n : String) (e : Entry)
    (hmem : (n, e) ∈ IrBootSender.codes_to_send config)
    (hbad : IrBootSender.badEntry e)
    (hping : dev Cmd.ping = true) :
    IrBootSender.processEntry dev n e = ([], false) ∧
    1 ≤ (IrBootSender.mainRun dev config).failed ∧
    (IrBootSender.mainRun dev config).exitCode = 1 ∧
    (IrBootSender.mainRun dev config).sent +
      (IrBootSender.mainRun dev config).failed =
      (IrBootSender.codes_to_send config).length := by
  have hnone := badEntry_buildLoadCmd hbad n
  have hPE : IrBootSender.processEntry dev n e = ([], false) := by
    unfold IrBootSender.processEntry IrBootSender.load_code_into_esp32
    rw [hnone]
    rfl
  have hne : (IrBootSender.codes_to_send config).isEmpty = false :=
    List.isEmpty_eq_false.mpr (List.ne_nil_of_mem hmem)
  rw [mainRun_eq dev config hping hne]
  have hpos : 1 ≤ (IrBootSender.runEntries dev (IrBootSender.codes_to_send config)).2.2 :=
    runEntries_failed_pos dev hmem (by rw [hPE])
  refine ⟨hPE, hpos, ?_, runEntries_total dev _⟩
  have hz : (IrBootSender.runEntries dev (IrBootSender.codes_to_send config)).2.2 ≠ 0 := by
    omega
  show (if (IrBootSender.runEntries dev (IrBootSender.codes_to_send config)).2.2 = 0
        then 0 else 1) = 1
  rw [if_neg hz]

/-- Witness for C10: an enabled entry with an unknown type string next
to a well-formed enabled entry. -/
theorem sender_fails_and_skips_malformed_entries_witness :
    ("bad", eBadType) ∈ IrBootSender.codes_to_send config10 ∧
    IrBootSender.badEntry eBadType ∧
    devOk Cmd.ping = true ∧
    (IrBootSender.processEntry devOk "bad" eBadType = ([], false) ∧
     1 ≤ (IrBootSender.mainRun devOk config10).failed ∧
     (IrBootSender.mainRun devOk config10).exitCode = 1 ∧
     (IrBootSender.mainRun devOk config10).sent +
       (IrBootSender.mainRun devOk config10).failed =
       (IrBootSender.codes_to_send config10).length) :=
  ⟨by decide, by decide, rfl,
   sender_fails_and_skips_malformed_entries devOk config10 "bad" eBadType
     (by decide) (by decide) rfl⟩
